import Mathlib

/-!
Verification of the CPF validation service (`app.py`).

The program has three pure operations:
- normalizar: the regex substitution removing every character outside `0`-`9`),
- `validar_cpf` (length check, degenerate-sequence check, two weighted checksums),
- `formatar_cpf` (re-rendering eleven digits as `XXX.XXX.XXX-XX`),
plus a batch endpoint `validar_lote` that maps the validator over a list and
aggregates counts.  Each is embedded below as an executable Lean definition,
loops becoming folds over `List.range` and string slices becoming
`List.take`/`List.drop` on the underlying character list.
-/

/-- Embeds the substitution of the regex `[^0-9]` by the empty string: keeps
exactly the ASCII decimal digits, in order.  `Char.isDigit` is the test
`48 ≤ c.val && c.val ≤ 57`, i.e. membership in `0123456789`. -/
def normalizar (s : String) : String :=
  String.mk (s.data.filter Char.isDigit)

/-- Embeds the Python conversion `int(c)` of a single digit character. -/
def digitVal (c : Char) : Nat :=
  c.toNat - 48

/-- The ten degenerate sequences the validator rejects, as listed in the source. -/
def sequencias_invalidas : List String :=
  ["00000000000", "11111111111", "22222222222",
   "33333333333", "44444444444", "55555555555",
   "66666666666", "77777777777", "88888888888",
   "99999999999"]

/-- Embeds `validar_cpf` from `app.py`: strip non-digits, require eleven
digits, reject the degenerate sequences, then check both weighted checksum
digits.  The two Python `for` loops become left folds over `List.range`. -/
def validar_cpf (cpf : String) : Bool :=
  let c := normalizar cpf
  if c.length ≠ 11 then false
  else if c ∈ sequencias_invalidas then false
  else
    let soma1 := (List.range 9).foldl (fun soma i => soma + digitVal (c.data.getD i '0') * (10 - i)) 0
    let resto1 := 11 - soma1 % 11
    let digito1 := if resto1 ≥ 10 then 0 else resto1
    if digito1 ≠ digitVal (c.data.getD 9 '0') then false
    else
      let soma2 := (List.range 10).foldl (fun soma i => soma + digitVal (c.data.getD i '0') * (11 - i)) 0
      let resto2 := 11 - soma2 % 11
      let digito2 := if resto2 ≥ 10 then 0 else resto2
      if digito2 ≠ digitVal (c.data.getD 10 '0') then false
      else true

/-- Embeds `formatar_cpf` from `app.py`: when the cleaned string has eleven
digits, render `digits[0:3].digits[3:6].digits[6:9]-digits[9:]`; otherwise
return the argument unchanged. -/
def formatar_cpf (cpf : String) : String :=
  let cpf_limpo := normalizar cpf
  if cpf_limpo.length = 11 then
    String.mk (cpf_limpo.data.take 3) ++ "." ++
    String.mk ((cpf_limpo.data.drop 3).take 3) ++ "." ++
    String.mk ((cpf_limpo.data.drop 6).take 3) ++ "-" ++
    String.mk (cpf_limpo.data.drop 9)
  else cpf

/-- One entry of the batch response body built by `validar_lote`. -/
structure ResultadoItem where
  cpf : String
  valido : Bool
  formatado : Option String

/-- The aggregate batch response body built by `validar_lote`. -/
structure LoteResposta where
  total : Nat
  validos : Nat
  invalidos : Nat
  resultados : List ResultadoItem

/-- Embeds the loop and aggregation of the `/validar/lote` handler: one
result per input in order, and the two counts computed by counting the
results with `valido` true, resp. false (the Python `sum(1 for ...)`). -/
def validar_lote (cpfs : List String) : LoteResposta :=
  let resultados := cpfs.map fun cpf =>
    let valido := validar_cpf cpf
    { cpf := cpf, valido := valido
      formatado := if valido then some (formatar_cpf cpf) else none : ResultadoItem }
  { total := resultados.length
    validos := resultados.countP fun r => r.valido
    invalidos := resultados.countP fun r => !r.valido
    resultados := resultados }

/-! ## Specification-side definition -/

/-- Transcribes the validation algorithm as the spec states it, for the
refinement claim: `digits = normalize(raw)` has length eleven, is none of the
ten single-digit sequences repeated eleven times, and both check digits match
the weighted sums `sum1 = sum of digit[i]*(10-i) for i = 0..8` and
`sum2 = sum of digit[i]*(11-i) for i = 0..9` through
`check = 0 if 11 - (sum mod 11) >= 10 else 11 - (sum mod 11)`. -/
def specValid (raw : String) : Prop :=
  let digits := normalizar raw
  digits.length = 11 ∧
  (∀ d, d < 10 → digits ≠ String.mk (List.replicate 11 (Char.ofNat (48 + d)))) ∧
  (let sum1 := ((List.range 9).map fun i => digitVal (digits.data.getD i '0') * (10 - i)).sum
   let remainder1 := 11 - sum1 % 11
   digitVal (digits.data.getD 9 '0') = if remainder1 ≥ 10 then 0 else remainder1) ∧
  (let sum2 := ((List.range 10).map fun i => digitVal (digits.data.getD i '0') * (11 - i)).sum
   let remainder2 := 11 - sum2 % 11
   digitVal (digits.data.getD 10 '0') = if remainder2 ≥ 10 then 0 else remainder2)


/-! ## Helper lemmas -/

theorem data_append (a b : String) : (a ++ b).data = a.data ++ b.data := rfl

theorem isDigit_iff (c : Char) : c.isDigit = true ↔ '0' ≤ c ∧ c ≤ '9' := by
  simp [Char.isDigit, Char.le_def, ge_iff_le]

theorem foldl_add_eq_sum (f : Nat → Nat) :
    ∀ (l : List Nat) (a : Nat), l.foldl (fun acc i => acc + f i) a = a + (l.map f).sum
  | [], a => by simp
  | i :: l, a => by
    simp [foldl_add_eq_sum f l, Nat.add_assoc]

theorem mem_sequencias_iff (s : String) :
    s ∈ sequencias_invalidas ↔
      ∃ d, d < 10 ∧ s = String.mk (List.replicate 11 (Char.ofNat (48 + d))) := by
  constructor
  · intro h
    simp only [sequencias_invalidas, List.mem_cons, List.not_mem_nil, or_false] at h
    rcases h with h|h|h|h|h|h|h|h|h|h
    · exact ⟨0, by omega, by rw [h]; decide⟩
    · exact ⟨1, by omega, by rw [h]; decide⟩
    · exact ⟨2, by omega, by rw [h]; decide⟩
    · exact ⟨3, by omega, by rw [h]; decide⟩
    · exact ⟨4, by omega, by rw [h]; decide⟩
    · exact ⟨5, by omega, by rw [h]; decide⟩
    · exact ⟨6, by omega, by rw [h]; decide⟩
    · exact ⟨7, by omega, by rw [h]; decide⟩
    · exact ⟨8, by omega, by rw [h]; decide⟩
    · exact ⟨9, by omega, by rw [h]; decide⟩
  · rintro ⟨d, hd, rfl⟩
    interval_cases d <;> decide

theorem normalizar_all_digits (s : String) : ∀ c ∈ (normalizar s).data, c.isDigit = true :=
  fun _ hc => List.of_mem_filter hc

theorem normalizar_idem (s : String) : normalizar (normalizar s) = normalizar s := by
  unfold normalizar
  exact congrArg String.mk (List.filter_eq_self.2 fun a ha => List.of_mem_filter ha)

theorem countP_add_countP_not {α : Type} (p : α → Bool) :
    ∀ l : List α, l.countP p + l.countP (fun a => !p a) = l.length
  | [] => rfl
  | a :: l => by
    by_cases h : p a = true <;>
      simp [List.countP_cons, h, ← countP_add_countP_not p l] <;> omega

/-! ## Claim theorems -/

/-- C1: `validate(raw)` returns true exactly when the normalized digits have
length eleven, avoid the ten repeated-digit sequences, and both check digits
agree with the weighted-sum formulas of the spec. -/
theorem validar_cpf_iff_specValid (raw : String) :
    validar_cpf raw = true ↔ specValid raw := by
  unfold validar_cpf specValid
  simp only [foldl_add_eq_sum, Nat.zero_add]
  set c := normalizar raw with hc
  set A := ((List.range 9).map fun i => digitVal (c.data.getD i '0') * (10 - i)).sum with hA
  set B := ((List.range 10).map fun i => digitVal (c.data.getD i '0') * (11 - i)).sum with hB
  set d9 := digitVal (c.data.getD 9 '0') with hd9
  set d10 := digitVal (c.data.getD 10 '0') with hd10
  by_cases h1 : c.length = 11
  · by_cases h2 : c ∈ sequencias_invalidas
    · rw [if_neg (not_not_intro h1), if_pos h2]
      obtain ⟨d, hd, heq⟩ := (mem_sequencias_iff c).1 h2
      simp only [Bool.false_eq_true, false_iff]
      rintro ⟨-, hall, -⟩
      exact hall d hd heq
    · rw [if_neg (not_not_intro h1), if_neg h2]
      have hall : ∀ d, d < 10 → c ≠ String.mk (List.replicate 11 (Char.ofNat (48 + d))) :=
        fun d hd heq => h2 ((mem_sequencias_iff c).2 ⟨d, hd, heq⟩)
      by_cases h3 : (if 11 - A % 11 ≥ 10 then 0 else 11 - A % 11) = d9
      · rw [if_neg (not_not_intro h3)]
        by_cases h4 : (if 11 - B % 11 ≥ 10 then 0 else 11 - B % 11) = d10
        · rw [if_neg (not_not_intro h4)]
          constructor
          · intro _
            exact ⟨h1, hall, h3.symm, h4.symm⟩
          · intro _
            rfl
        · rw [if_pos h4]
          simp only [Bool.false_eq_true, false_iff]
          rintro ⟨-, -, -, h10⟩
          exact h4 h10.symm
      · rw [if_pos h3]
        simp only [Bool.false_eq_true, false_iff]
        rintro ⟨-, -, h9, -⟩
        exact h3 h9.symm
  · rw [if_pos h1]
    simp only [Bool.false_eq_true, false_iff]
    rintro ⟨h, -⟩
    exact h1 h

/-- C2: whenever the normalized input does not have exactly eleven digits,
`validate` returns false. -/
theorem validar_cpf_false_of_length_ne (s : String)
    (h : (normalizar s).length ≠ 11) : validar_cpf s = false := by
  unfold validar_cpf
  rw [if_pos h]

/-- Witness for C2 at the three-digit input `123`. -/
theorem validar_cpf_false_of_length_ne_witness :
    (normalizar "123").length ≠ 11 ∧ validar_cpf "123" = false :=
  ⟨by decide, validar_cpf_false_of_length_ne "123" (by decide)⟩

/-- C3: any raw input whose normalization is one of the ten single-digit
sequences repeated eleven times is rejected by `validate`. -/
theorem validar_cpf_false_of_repeated (raw : String) (d : Nat) (hd : d < 10)
    (h : normalizar raw = String.mk (List.replicate 11 (Char.ofNat (48 + d)))) :
    validar_cpf raw = false := by
  have hmem : normalizar raw ∈ sequencias_invalidas :=
    (mem_sequencias_iff _).2 ⟨d, hd, h⟩
  unfold validar_cpf
  by_cases h1 : (normalizar raw).length ≠ 11
  · rw [if_pos h1]
  · rw [if_neg h1, if_pos hmem]

/-- Witness for C3 at the punctuated all-zero input. -/
theorem validar_cpf_false_of_repeated_witness :
    (0 : Nat) < 10 ∧
    normalizar "000.000.000-00" = String.mk (List.replicate 11 (Char.ofNat (48 + 0))) ∧
    validar_cpf "000.000.000-00" = false :=
  ⟨by decide, by decide,
   validar_cpf_false_of_repeated "000.000.000-00" 0 (by decide) (by decide)⟩

/-- C4: normalization keeps only characters between `0` and `9`, as a
subsequence of the original character list, namely exactly the digit
characters of the input in their original order; it is total and may
return the empty string. -/
theorem normalizar_only_digits_in_order (s : String) :
    ((normalizar s).data.all fun c => decide ('0' ≤ c ∧ c ≤ '9')) = true ∧
    List.Sublist (normalizar s).data s.data ∧
    (normalizar s).data = s.data.filter Char.isDigit := by
  refine ⟨?_, List.filter_sublist s.data, rfl⟩
  rw [List.all_eq_true]
  intro c hc
  rw [decide_eq_true_eq]
  exact (isDigit_iff c).1 (List.of_mem_filter hc)

/-- C5: the documented example `111.444.777-35` validates, and formatting it
returns it unchanged. -/
theorem validar_formatar_exemplo :
    validar_cpf "111.444.777-35" = true ∧
    formatar_cpf "111.444.777-35" = "111.444.777-35" := by
  constructor <;> decide

theorem normalizar_formatar_cpf (s : String) (h : (normalizar s).length = 11) :
    normalizar (formatar_cpf s) = normalizar s := by
  have hall := normalizar_all_digits s
  have ht1 : ((normalizar s).data.take 3).filter Char.isDigit = (normalizar s).data.take 3 :=
    List.filter_eq_self.2 fun a ha => hall a (List.mem_of_mem_take ha)
  have ht2 : (((normalizar s).data.drop 3).take 3).filter Char.isDigit
      = ((normalizar s).data.drop 3).take 3 :=
    List.filter_eq_self.2 fun a ha => hall a (List.mem_of_mem_drop (List.mem_of_mem_take ha))
  have ht3 : (((normalizar s).data.drop 6).take 3).filter Char.isDigit
      = ((normalizar s).data.drop 6).take 3 :=
    List.filter_eq_self.2 fun a ha => hall a (List.mem_of_mem_drop (List.mem_of_mem_take ha))
  have ht4 : ((normalizar s).data.drop 9).filter Char.isDigit = (normalizar s).data.drop 9 :=
    List.filter_eq_self.2 fun a ha => hall a (List.mem_of_mem_drop ha)
  have hnorm : ∀ x : String, normalizar x = String.mk (x.data.filter Char.isDigit) :=
    fun _ => rfl
  have hmk : ∀ t : List Char, (String.mk t).data = t := fun _ => rfl
  have hdot : (String.data ".").filter Char.isDigit = [] := rfl
  have hdash : (String.data "-").filter Char.isDigit = [] := rfl
  have e1 : (normalizar s).data.take 3 ++ ((normalizar s).data.drop 3).take 3
      = (normalizar s).data.take 6 := by
    rw [← List.take_add]
  have e2 : (normalizar s).data.take 6 ++ ((normalizar s).data.drop 6).take 3
      = (normalizar s).data.take 9 := by
    rw [← List.take_add]
  have e3 : (normalizar s).data.take 9 ++ (normalizar s).data.drop 9 = (normalizar s).data :=
    List.take_append_drop 9 _
  unfold formatar_cpf
  rw [if_pos h]
  rw [hnorm]
  simp only [data_append, hmk, List.filter_append, ht1, ht2, ht3, ht4, hdot, hdash,
    List.append_nil, List.nil_append]
  rw [e1, e2, e3]

/-- C6: formatting is idempotent on inputs that normalize to eleven digits. -/
theorem formatar_cpf_idem (s : String) (h : (normalizar s).length = 11) :
    formatar_cpf (formatar_cpf s) = formatar_cpf s := by
  have hn := normalizar_formatar_cpf s h
  have hfmt : ∀ t : String, normalizar t = normalizar s →
      formatar_cpf t = formatar_cpf s := by
    intro t ht
    unfold formatar_cpf
    rw [ht]
    simp [h]
  exact hfmt (formatar_cpf s) hn

/-- Witness for C6 at the documented valid example. -/
theorem formatar_cpf_idem_witness :
    (normalizar "111.444.777-35").length = 11 ∧
    formatar_cpf (formatar_cpf "111.444.777-35") = formatar_cpf "111.444.777-35" :=
  ⟨by decide, formatar_cpf_idem "111.444.777-35" (by decide)⟩

/-- C7: `format` passes any input through unchanged unless the normalization
has exactly eleven digits, in which case it renders the punctuated
`XXX.XXX.XXX-XX` form from the digit slices. -/
theorem formatar_cpf_cases (raw : String) :
    ((normalizar raw).length ≠ 11 → formatar_cpf raw = raw) ∧
    ((normalizar raw).length = 11 → formatar_cpf raw =
      String.mk ((normalizar raw).data.take 3) ++ "." ++
      String.mk (((normalizar raw).data.drop 3).take 3) ++ "." ++
      String.mk (((normalizar raw).data.drop 6).take 3) ++ "-" ++
      String.mk ((normalizar raw).data.drop 9)) := by
  constructor
  · intro h
    unfold formatar_cpf
    rw [if_neg h]
  · intro h
    unfold formatar_cpf
    rw [if_pos h]

/-- Witness for C7: pass-through on a short input and punctuation on the
documented valid example. -/
theorem formatar_cpf_cases_witness :
    formatar_cpf "ab" = "ab" ∧ formatar_cpf "11144477735" = "111.444.777-35" := by
  constructor
  · exact (formatar_cpf_cases "ab").1 (by decide)
  · rw [(formatar_cpf_cases "11144477735").2 (by decide)]
    decide

/-- C8: the batch response satisfies `validos + invalidos = n = total`, and
its `resultados` list has one entry per input, in input order. -/
theorem validar_lote_invariante (cpfs : List String) :
    (validar_lote cpfs).validos + (validar_lote cpfs).invalidos = cpfs.length ∧
    (validar_lote cpfs).total = cpfs.length ∧
    (validar_lote cpfs).resultados.length = cpfs.length ∧
    (validar_lote cpfs).resultados.map (fun r => r.cpf) = cpfs := by
  have hres : (validar_lote cpfs).resultados
      = cpfs.map (fun cpf =>
          { cpf := cpf, valido := validar_cpf cpf
            formatado := if validar_cpf cpf then some (formatar_cpf cpf) else none
            : ResultadoItem }) := rfl
  have hlen : (validar_lote cpfs).resultados.length = cpfs.length := by
    rw [hres, List.length_map]
  refine ⟨?_, hlen, hlen, ?_⟩
  · have hcount := countP_add_countP_not (fun r : ResultadoItem => r.valido)
      (validar_lote cpfs).resultados
    calc (validar_lote cpfs).validos + (validar_lote cpfs).invalidos
        = (validar_lote cpfs).resultados.length := hcount
      _ = cpfs.length := hlen
  · rw [hres, List.map_map]
    exact List.map_id cpfs

/-- C9: `validate` and `format` are total functions; on any input whose
normalization does not have exactly eleven digits (the empty string,
punctuation-only strings, oversized digit strings) `validate` returns false
and `format` returns its argument unchanged. -/
theorem validar_formatar_total (s : String) (h : (normalizar s).length ≠ 11) :
    validar_cpf s = false ∧ formatar_cpf s = s := by
  constructor
  · unfold validar_cpf
    rw [if_pos h]
  · unfold formatar_cpf
    rw [if_neg h]

/-- Witness for C9 at a punctuation-only input. -/
theorem validar_formatar_total_witness :
    (normalizar "..-").length ≠ 11 ∧
    (validar_cpf "..-" = false ∧ formatar_cpf "..-" = "..-") :=
  ⟨by decide, validar_formatar_total "..-" (by decide)⟩

/-- C10 counterexample: at the input `a`, `format` is not invariant under
normalization, since `format("a") = "a"` while `format(normalize("a")) =
format("") = ""`; hence the claim as stated fails. -/
theorem validar_formatar_normalizar_cex :
    ¬ (validar_cpf "a" = validar_cpf (normalizar "a") ∧
       formatar_cpf "a" = formatar_cpf (normalizar "a")) := by
  decide

/-- C10 amended: `validate` is invariant under normalization for every input;
`format` is invariant under normalization whenever the normalization has
exactly eleven digits (for other inputs `format` passes its argument through,
which normalization can change). -/
theorem validar_normalizar_invariante (s : String) :
    validar_cpf (normalizar s) = validar_cpf s ∧
    ((normalizar s).length = 11 → formatar_cpf (normalizar s) = formatar_cpf s) := by
  constructor
  · unfold validar_cpf
    rw [normalizar_idem]
  · intro h
    unfold formatar_cpf
    rw [normalizar_idem]
    simp [h]

/-- Witness for C10 amended, at the documented valid example. -/
theorem validar_normalizar_invariante_witness :
    (normalizar "111.444.777-35").length = 11 ∧
    (validar_cpf (normalizar "111.444.777-35") = validar_cpf "111.444.777-35" ∧
     formatar_cpf (normalizar "111.444.777-35") = formatar_cpf "111.444.777-35") :=
  ⟨by decide,
   ⟨(validar_normalizar_invariante "111.444.777-35").1,
    (validar_normalizar_invariante "111.444.777-35").2 (by decide)⟩⟩
